import Mathlib

/-
Verification development for the device_monitor repository.

Shallow embedding of the event-scan-and-escalation pipeline:
  - src/llm_analyzer.py : preprocess_logs, analyze_logs_with_llm
  - src/monitor.py      : analyze_event_logs, run_monitor (decision slice)
  - src/db_manager.py   : store_events, store_hardware_info

Modelling conventions:
  - Python strings are Lean Strings; `pat in s` is `pyIn pat s` (contiguous
    substring test), `s.lower()` is `pyLower` (ASCII case folding; the Korean
    text in this code base is unaffected by lowercasing either way),
    `s.strip()` is `pyStrip`.
  - The two regex searches of llm_analyzer.py and the strptime call are
    embedded as explicit scanners over the character list with the same
    leftmost-search / greedy-class semantics on the relevant input space.
  - OS, network and database effects are oracle parameters: the event-log
    read is a list of batches of records, the model call outcome is a
    NetOutcome value, the sqlite connection/commit behaviour is a Bool plus
    an optional failure-injection index.
  - Exceptions that can escape a Python function are Except.error values.
-/

/-! ## Python string primitives -/

/-- Boolean test: the first list is an initial segment of the second. -/
def listLE : List Char → List Char → Bool
  | [], _ => true
  | _ :: _, [] => false
  | a :: ps, b :: ss => a == b && listLE ps ss

/-- Boolean contiguous-substring test on character lists (Python `in`). -/
def listSub (pat : List Char) : List Char → Bool
  | [] => listLE pat []
  | s@(_ :: t) => listLE pat s || listSub pat t

/-- Python `pat in s` for strings. -/
def pyIn (pat s : String) : Bool :=
  listSub pat.data s.data

/-- Python `s.lower()` (ASCII case folding). -/
def pyLower (s : String) : String :=
  ⟨s.data.map Char.toLower⟩

/-- Python `s.strip()`. -/
def pyStrip (s : String) : String :=
  ⟨((s.data.dropWhile Char.isWhitespace).reverse.dropWhile Char.isWhitespace).reverse⟩

/-- Python `"\n".join(lines)`. -/
def joinNL : List String → String
  | [] => ""
  | [a] => a
  | a :: b :: t => a ++ "\n" ++ joinNL (b :: t)

/-! ## The detail-line grammar scanners (llm_analyzer.py lines 30-38)

`re.search` tries every start position from the left; at a given start the
character classes `[\d-]+`, `[\d:]+`, `[^,]+`, `\d+` are greedy and are each
followed either by a literal not in the class or by the end of the pattern,
so maximal munch is exact. -/

/-- Character class `[\d-]`. -/
def clsDateC (c : Char) : Bool := c.isDigit || c == '-'

/-- Character class `[\d:]`. -/
def clsTimeC (c : Char) : Bool := c.isDigit || c == ':'

/-- Match of `시간: ([\d-]+ [\d:]+)` anchored at the head of the list. -/
def timeAt (cs : List Char) : Option String :=
  if listLE "시간: ".data cs then
    let rest := cs.drop 4
    let r1 := rest.takeWhile clsDateC
    if r1.isEmpty then none
    else
      match rest.dropWhile clsDateC with
      | ' ' :: rest2 =>
        let r2 := rest2.takeWhile clsTimeC
        if r2.isEmpty then none else some ⟨r1 ++ (' ' :: r2)⟩
      | _ => none
  else none

/-- Leftmost search for `시간: ([\d-]+ [\d:]+)`, returning the capture. -/
def searchTime : List Char → Option String
  | [] => none
  | c :: t =>
    match timeAt (c :: t) with
    | some s => some s
    | none => searchTime t

/-- Match of `소스: ([^,]+)` anchored at the head of the list. -/
def sourceAt (cs : List Char) : Option String :=
  if listLE "소스: ".data cs then
    let r := (cs.drop 4).takeWhile (fun c => !(c == ','))
    if r.isEmpty then none else some ⟨r⟩
  else none

/-- Leftmost search for `소스: ([^,]+)`. -/
def searchSource : List Char → Option String
  | [] => none
  | c :: t =>
    match sourceAt (c :: t) with
    | some s => some s
    | none => searchSource t

/-- Match of `ID: (\d+)` anchored at the head of the list. -/
def idAt (cs : List Char) : Option String :=
  if listLE "ID: ".data cs then
    let r := (cs.drop 4).takeWhile Char.isDigit
    if r.isEmpty then none else some ⟨r⟩
  else none

/-- Leftmost search for `ID: (\d+)`. -/
def searchId : List Char → Option String
  | [] => none
  | c :: t =>
    match idAt (c :: t) with
    | some s => some s
    | none => searchId t

/-! ## strptime '%Y-%m-%d %H:%M:%S' (CPython semantics on the captured space) -/

/-- Split a character list at a separator character. -/
def splitCh (sep : Char) : List Char → List (List Char)
  | [] => [[]]
  | c :: t =>
    let r := splitCh sep t
    if c == sep then [] :: r
    else
      match r with
      | [] => [[c]]
      | h :: tl => (c :: h) :: tl

/-- Value of a non-empty all-digit character list. -/
def digitsVal (cs : List Char) : Option Nat :=
  if !cs.isEmpty && cs.all Char.isDigit then
    some (cs.foldl (fun a c => a * 10 + (c.toNat - 48)) 0)
  else none

/-- Gregorian leap year. -/
def isLeap (y : Nat) : Bool :=
  y % 4 == 0 && (y % 100 != 0 || y % 400 == 0)

/-- Days in a month, as validated by datetime.datetime. -/
def daysInMonth (y mo : Nat) : Nat :=
  if mo == 2 then (if isLeap y then 29 else 28)
  else if mo == 4 || mo == 6 || mo == 9 || mo == 11 then 30
  else 31

/-- Strictly monotone encoding of a datetime into a sort key. -/
def encDT (y mo d h mi s : Nat) : Nat :=
  ((((y * 13 + mo) * 32 + d) * 24 + h) * 60 + mi) * 60 + s

/-- Sort key of datetime.datetime.min (year 1). -/
def minKey : Nat := encDT 1 1 1 0 0 0

/-- datetime.datetime.strptime(t, '%Y-%m-%d %H:%M:%S'): `some` sort key on
success, `none` when the call raises ValueError.  %Y is exactly four digits,
the other fields one or two digits within their calendar ranges. -/
def parseDT (t : String) : Option Nat :=
  match splitCh ' ' t.data with
  | [dpart, tpart] =>
    match splitCh '-' dpart, splitCh ':' tpart with
    | [ys, ms, ds], [hs, mis, ss] =>
      match digitsVal ys, digitsVal ms, digitsVal ds,
            digitsVal hs, digitsVal mis, digitsVal ss with
      | some y, some mo, some d, some h, some mi, some s =>
        if ys.length == 4 && decide (1 ≤ y) &&
           decide (ms.length ≤ 2) && decide (1 ≤ mo) && decide (mo ≤ 12) &&
           decide (ds.length ≤ 2) && decide (1 ≤ d) && decide (d ≤ daysInMonth y mo) &&
           decide (hs.length ≤ 2) && decide (h ≤ 23) &&
           decide (mis.length ≤ 2) && decide (mi ≤ 59) &&
           decide (ss.length ≤ 2) && decide (s ≤ 59)
        then some (encDT y mo d h mi s)
        else none
      | _, _, _, _, _, _ => none
    | _, _ => none
  | _ => none

/-! ## preprocess_logs (llm_analyzer.py lines 12-89) -/

/-- One parsed entry of the summarizer (the dict built at lines 40-55). -/
structure PEntry where
  time : String
  key : Nat
  source : String
  event_id : String
  full_log : String
deriving Repr, DecidableEq

/-- Per-line processing of the loop at lines 27-55: `none` when the line is
silently skipped (no time-pattern match), a sentinel entry when the
extracted time string fails strptime (the except branch), a parsed entry
otherwise. -/
def lineEntry (l : String) : Option PEntry :=
  match searchTime l.data with
  | none => none
  | some t =>
    let eid := (searchId l.data).getD "알 수 없음"
    let src :=
      match searchSource l.data with
      | some s => pyStrip s
      | none => "알 수 없음"
    match parseDT t with
    | some k => some ⟨t, k, src, eid, l⟩
    | none => some ⟨"1970-01-01 00:00:00", minKey, "파싱 실패", "0", l⟩

/-- The `parsed_logs` list built from the truncated window. -/
def parsedLogs (window : List String) : List PEntry :=
  window.filterMap lineEntry

/-- Stable ascending insertion by sort key. -/
def insertEntry (e : PEntry) : List PEntry → List PEntry
  | [] => [e]
  | b :: t => if b.key ≤ e.key then b :: insertEntry e t else e :: b :: t

/-- Python `sorted(parsed_logs, key=timestamp)` (stable, ascending). -/
def sortEntries (l : List PEntry) : List PEntry :=
  l.foldl (fun acc e => insertEntry e acc) []

/-- Group key `f"{source} (ID: {event_id})"`. -/
def groupKey (e : PEntry) : String :=
  e.source ++ " (ID: " ++ e.event_id ++ ")"

/-- Append an entry to its group, preserving first-occurrence order
(Python dict insertion order). -/
def addEntry (gs : List (String × List PEntry)) (k : String) (e : PEntry) :
    List (String × List PEntry) :=
  match gs with
  | [] => [(k, [e])]
  | (k2, es) :: rest =>
    if k2 == k then (k2, es ++ [e]) :: rest else (k2, es) :: addEntry rest k e

/-- The grouping loop at lines 61-66. -/
def groupsOf (l : List PEntry) : List (String × List PEntry) :=
  l.foldl (fun gs e => addEntry gs (groupKey e) e) []

/-- Last element of a non-empty list (Python `sorted_logs[-1]`). -/
def lastOf (a : PEntry) : List PEntry → PEntry
  | [] => a
  | b :: t => lastOf b t

/-- Rendering of one displayed entry: `f"[{log['time']}] {log['full_log']}"`. -/
def entryLine (e : PEntry) : String :=
  "[" ++ e.time ++ "] " ++ e.full_log

/-- Rendering of one group (lines 75-87): header, then for groups of more
than 5 entries a truncation note and the first 3 plus last 2 entries,
otherwise all entries, then a blank line. -/
def renderGroup (k : String) (logs : List PEntry) : List String :=
  let hdr := "## " ++ k ++ " - " ++ toString logs.length ++ "건"
  if logs.length > 5 then
    hdr ::
      ("전체 " ++ toString logs.length ++ "건 중 처음 3건과 마지막 2건만 표시합니다.") ::
      ((logs.take 3 ++ logs.drop (logs.length - 2)).map entryLine ++ [""])
  else
    hdr :: (logs.map entryLine ++ [""])

/-- Concatenated rendering of all groups in order. -/
def renderGroups : List (String × List PEntry) → List String
  | [] => []
  | (k, es) :: rest => renderGroup k es ++ renderGroups rest

/-- preprocess_logs.  Returns `Except.error "IndexError"` for the uncaught
exception raised at line 72 when a non-empty input yields no parsed entry
(`sorted_logs[0]` on an empty list). -/
def preprocess_logs (log_details : List String) (max_logs : Nat) : Except String String :=
  if log_details.isEmpty then
    Except.ok "분석할 관련 이벤트 로그 내용이 없습니다."
  else
    let recent := log_details.take max_logs
    let sorted := sortEntries (parsedLogs recent)
    match sorted with
    | [] => Except.error "IndexError"
    | s0 :: rest =>
      let groups := groupsOf (s0 :: rest)
      let lines :=
        ["## 요약 정보",
         "- 총 로그 수: " ++ toString (s0 :: rest).length ++ "개",
         "- 시간 범위: " ++ s0.time ++ " ~ " ++ (lastOf s0 rest).time,
         "- 이벤트 소스 유형: " ++ toString groups.length ++ "개\n"] ++
        renderGroups groups
      Except.ok (joinNL lines)

/-! ## Configuration (the fields the core reads, post-default values)

`api_url`/`model` use `""` for Python None-or-empty, which is exactly the
`if not api_url or not model` falsiness test of the code. -/

/-- The `event_log` section of config.yaml as read at monitor.py 175-179. -/
structure EvtConfig where
  log_name : String := "System"
  max_events : Nat := 1000
  target_sources : List String := []
  target_event_ids : List Int := []
deriving Repr, DecidableEq

/-- The `llm` section of config.yaml as read at llm_analyzer.py 97-103 and
monitor.py 386-388. -/
structure LlmConfig where
  api_url : String := ""
  model : String := ""
  check_threshold : Nat := 5
  enabled : Bool := true
  max_logs : Nat := 20
  abnormal_keywords : List String := []
deriving Repr, DecidableEq

/-- The configuration surface consumed by the core. -/
structure Config where
  event_log : EvtConfig := {}
  llm : LlmConfig := {}
deriving Repr, DecidableEq

/-! ## analyze_logs_with_llm (llm_analyzer.py lines 91-230)

The request body (prompt, headers, payload, lines 114-183) only shapes the
outbound HTTP request; the response is an oracle `NetOutcome`, so the
request text is not modelled.  Each `except` arm of lines 213-230 is one
oracle constructor. -/

/-- The `message` object of a response choice. -/
structure LlmMessage where
  content : Option String
deriving Repr, DecidableEq

/-- One element of the `choices` array. -/
structure LlmChoice where
  message : Option LlmMessage
deriving Repr, DecidableEq

/-- The parsed response JSON shape the code inspects. -/
structure LlmResp where
  choices : Option (List LlmChoice)
deriving Repr, DecidableEq

/-- Outcome of the requests.post call: each failure constructor corresponds
to one `except` branch of lines 213-230 (reqError carries
`e.__class__.__name__`, jsonError is the json.JSONDecodeError branch,
unknown the final `except Exception`). -/
inductive NetOutcome where
  | timeout
  | connError
  | reqError (className : String)
  | jsonError
  | unknown
  | ok (resp : LlmResp)
deriving Repr, DecidableEq

/-- Python falsiness of the api_key argument (`if not api_key`): absent or
empty. -/
def apiKeyFalsy : Option String → Bool
  | none => true
  | some k => k == ""

/-- The keyword test of line 199:
`any(keyword in llm_response_content.lower() for keyword in abnormal_keywords)`.
Note only the response is lowercased, not the keyword. -/
def classifyAbnormal (kws : List String) (content : String) : Bool :=
  kws.any (fun k => pyIn k (pyLower content))

/-- Lines 198-205: marker-prefixed result text. -/
def classifyResponse (kws : List String) (content : String) : String :=
  if classifyAbnormal kws content then "비정상 패턴 의심됨: " ++ content
  else "정상 범위 추정: " ++ content

/-- The response-shape inspection of lines 191-211 (truthiness checks on
choices, message, content). -/
def respResult (kws : List String) (resp : LlmResp) : Except String String :=
  match resp.choices with
  | some (c :: _) =>
    match c.message with
    | some m =>
      match m.content with
      | some content =>
        if content == "" then Except.ok "LLM 응답 형식 오류"
        else Except.ok (classifyResponse kws content)
      | none => Except.ok "LLM 응답 형식 오류"
    | none => Except.ok "LLM 응답 형식 오류"
  | _ => Except.ok "LLM 응답 형식 오류"

/-- The try/except outcome mapping of lines 186-230 given the network
oracle: every failure mode yields its fixed sentinel. -/
def netResult (kws : List String) (net : NetOutcome) : Except String String :=
  match net with
  | NetOutcome.timeout => Except.ok "LLM API 시간 초과"
  | NetOutcome.connError => Except.ok "LLM API 연결 오류"
  | NetOutcome.reqError n => Except.ok ("LLM API 요청 오류: " ++ n)
  | NetOutcome.jsonError => Except.ok "LLM 응답 파싱 오류"
  | NetOutcome.unknown => Except.ok "LLM 분석 중 알 수 없는 오류"
  | NetOutcome.ok resp => respResult kws resp

/-- analyze_logs_with_llm.  `Except.error` is an exception escaping the
function: the only such path is preprocess_logs raising at line 110, which
sits outside the try block starting at line 186. -/
def analyze_logs_with_llm (log_details : List String) (config : Config)
    (api_key : Option String) (net : NetOutcome) : Except String String :=
  if apiKeyFalsy api_key then Except.ok "API 키 없음"
  else
    let l := config.llm
    if l.api_url == "" || l.model == "" then Except.ok "LLM 설정 오류"
    else
      match preprocess_logs log_details l.max_logs with
      | Except.error e => Except.error e
      | Except.ok log_summary =>
        if log_summary == "" || log_summary == "분석할 관련 이벤트 로그 내용이 없습니다." then
          Except.ok "분석할 로그 내용 없음"
        else netResult l.abnormal_keywords net

/-! ## analyze_event_logs (monitor.py lines 169-288)

A log record as delivered by win32evtlog, with the SafeFormatMessage
outcome attached (ok text, or the cause of the formatting exception).
ReadEventLog is modelled as a list of batches; reaching the end of the
list is ERROR_NO_MORE_ITEMS.  `openOk = false` is the
`win32evtlog.error` path of line 277 (log cannot be opened/read). -/

/-- Outcome of win32evtlogutil.SafeFormatMessage for one record. -/
inductive MsgResult where
  | ok (text : String)
  | err (cause : String)
deriving Repr, DecidableEq

/-- One event-log record. -/
structure EvtRecord where
  eventID : Int
  sourceName : String
  timeStr : String
  isoTimeStr : String
  msg : MsgResult
deriving Repr, DecidableEq

/-- The structured record built at monitor.py lines 239-246 / 257-264. -/
structure MatchedEvent where
  timestamp : String
  source : String
  event_id : Int
  message : String
  llm_analysis : String
  abnormal : Bool
deriving Repr, DecidableEq

/-- `event.EventID & 0xFFFF` (Python bitwise AND, two's complement on
negatives, equals Euclidean mod 2^16). -/
def eidOf (r : EvtRecord) : Int :=
  r.eventID.emod 65536

/-- The match test of lines 221-225 with its exact short-circuit shape. -/
def matchDecision (sources : List String) (ids : List Int)
    (source_name : String) (event_id : Int) : Bool :=
  let mf := !sources.isEmpty && decide (source_name ∈ sources)
  if !mf && (!ids.isEmpty && decide (event_id ∈ ids)) then true else mf

/-- The detail string of line 235 (or 254 when formatting failed). -/
def mkDetail (r : EvtRecord) : String :=
  match r.msg with
  | MsgResult.ok m =>
    "시간: " ++ r.timeStr ++ ", 소스: " ++ r.sourceName ++
      ", ID: " ++ toString (eidOf r) ++ ", 메시지: " ++ pyStrip m
  | MsgResult.err c =>
    "시간: " ++ r.timeStr ++ ", 소스: " ++ r.sourceName ++
      ", ID: " ++ toString (eidOf r) ++ ", 메시지: (포맷 오류: " ++ c ++ ")"

/-- The structured record of lines 239-246 (or 257-264). -/
def mkEvent (r : EvtRecord) : MatchedEvent :=
  match r.msg with
  | MsgResult.ok m => ⟨r.isoTimeStr, r.sourceName, eidOf r, pyStrip m, "", false⟩
  | MsgResult.err c => ⟨r.isoTimeStr, r.sourceName, eidOf r, "포맷 오류: " ++ c, "", false⟩

/-- The record loop of lines 216-266 over one (truncated) batch: returns
(match count, detail lines, structured records) in encounter order. -/
def processAll (ec : EvtConfig) : List EvtRecord → Nat × List String × List MatchedEvent
  | [] => (0, [], [])
  | r :: rest =>
    let p := processAll ec rest
    if matchDecision ec.target_sources ec.target_event_ids r.sourceName (eidOf r) then
      (p.1 + 1, mkDetail r :: p.2.1, mkEvent r :: p.2.2)
    else p

/-- The while loop of lines 198-271: per batch, at most
`max_events - total_read` records are examined; an empty batch or batch
exhaustion stops the loop. -/
def scanBatches (ec : EvtConfig) : List (List EvtRecord) → Nat → Nat × List String × List MatchedEvent
  | [], _ => (0, [], [])
  | b :: rest, total_read =>
    if ec.max_events ≤ total_read then (0, [], [])
    else if b.isEmpty then (0, [], [])
    else
      let k := min b.length (ec.max_events - total_read)
      let p := processAll ec (b.take k)
      let q :=
        if ec.max_events ≤ total_read + k then (0, [], [])
        else scanBatches ec rest (total_read + k)
      (p.1 + q.1, p.2.1 ++ q.2.1, p.2.2 ++ q.2.2)

/-- analyze_event_logs.  The empty-criteria refusal of lines 184-186 and
the log-access failure of lines 277-279 both return the plain zero triple. -/
def analyze_event_logs (config : Config) (openOk : Bool)
    (batches : List (List EvtRecord)) : Nat × List String × List MatchedEvent :=
  let ec := config.event_log
  if ec.target_sources.isEmpty && ec.target_event_ids.isEmpty then (0, [], [])
  else if openOk then scanBatches ec batches 0
  else (0, [], [])

/-! ## Persistence boundary (db_manager.py lines 188-255)

The events/hardware_info tables are lists of rows; `dbOk = false` is
`get_db_connection()` returning None; `failAt = some i` injects a
sqlite3.Error at the i-th INSERT of the batch (0-based).  The code commits
only after the loop, and on an exception the connection is closed in
`finally` without commit, so sqlite rolls the whole batch back. -/

/-- A Python event dict as accepted by store_events (missing keys are
`none`; `.get` supplies the defaults). -/
structure EventDict where
  timestamp : Option String := none
  source : Option String := none
  event_id : Option Int := none
  message : Option String := none
  llm_analysis : Option String := none
  abnormal : Option Bool := none
deriving Repr, DecidableEq

/-- A row of the events table. -/
structure EventRow where
  timestamp : String
  source : String
  event_id : Int
  message : String
  llm_analysis : String
  abnormal_flag : Nat
deriving Repr, DecidableEq

/-- The INSERT parameter tuple of db_manager.py lines 238-243, with
`now` standing for datetime.datetime.now().isoformat(). -/
def rowOf (now : String) (e : EventDict) : EventRow :=
  ⟨e.timestamp.getD now, e.source.getD "", e.event_id.getD 0,
   e.message.getD "", e.llm_analysis.getD "",
   if e.abnormal.getD false then 1 else 0⟩

/-- The insert loop of lines 234-245: `none` when an injected sqlite3.Error
aborts it, otherwise the count and the uncommitted rows. -/
def insertLoop (now : String) (failAt : Option Nat) :
    Nat → Nat → List EventRow → List EventDict → Option (Nat × List EventRow)
  | _, count, pending, [] => some (count, pending)
  | idx, count, pending, e :: rest =>
    if failAt == some idx then none
    else insertLoop now failAt (idx + 1) (count + 1) (pending ++ [rowOf now e]) rest

/-- store_events.  The session_id parameter is accepted but never used by
the code (the events table has no session column). -/
def store_events (failAt : Option Nat) (dbOk : Bool) (db : List EventRow)
    (now : String) (session_id : Option Nat) (events : List EventDict) :
    Nat × List EventRow :=
  if events.isEmpty then (0, db)
  else if !dbOk then (0, db)
  else
    match insertLoop now failAt 0 0 [] events with
    | some (count, rows) => (count, db ++ rows)
    | none => (0, db)

/-- A Python device dict as accepted by store_hardware_info. -/
structure DeviceDict where
  name : Option String := none
  description : Option String := none
  device_id : Option String := none
deriving Repr, DecidableEq

/-- A row of the hardware_info table. -/
structure HwRow where
  timestamp : String
  hw_type : String
  name : String
  description : String
  device_id : String
deriving Repr, DecidableEq

/-- The INSERT parameter tuple of db_manager.py lines 203-207. -/
def hwRowOf (now hw_type : String) (d : DeviceDict) : HwRow :=
  ⟨now, hw_type, d.name.getD "", d.description.getD "", d.device_id.getD ""⟩

/-- The insert loop of lines 202-209. -/
def hwInsertLoop (now hw_type : String) (failAt : Option Nat) :
    Nat → Nat → List HwRow → List DeviceDict → Option (Nat × List HwRow)
  | _, count, pending, [] => some (count, pending)
  | idx, count, pending, d :: rest =>
    if failAt == some idx then none
    else hwInsertLoop now hw_type failAt (idx + 1) (count + 1) (pending ++ [hwRowOf now hw_type d]) rest

/-- store_hardware_info.  As with store_events, session_id is never used. -/
def store_hardware_info (failAt : Option Nat) (dbOk : Bool) (db : List HwRow)
    (now : String) (session_id : Option Nat) (hw_type : String)
    (devices : List DeviceDict) : Nat × List HwRow :=
  if devices.isEmpty then (0, db)
  else if !dbOk then (0, db)
  else
    match hwInsertLoop now hw_type failAt 0 0 [] devices with
    | some (count, rows) => (count, db ++ rows)
    | none => (0, db)

/-! ## run_monitor (monitor.py lines 328-454, decision slice)

Hardware enumeration is summarised by its device count `hw`; the events
table is the only persisted table modelled.  `session_id` is the
start_scan_session result (sqlite row ids are >= 1, so Python truthiness
of the id coincides with `isSome`).  An `Except.error` is an exception
escaping run_monitor: the only such path is analyze_logs_with_llm
re-raising from preprocess_logs. -/

/-- Python truthiness of the loaded api_key (`if api_key:`). -/
def apiKeyTruthy (k : Option String) : Bool :=
  !apiKeyFalsy k

/-- The MatchedEvent fields as the dict handed to store_events. -/
def dictOf (e : MatchedEvent) : EventDict :=
  ⟨some e.timestamp, some e.source, some e.event_id,
   some e.message, some e.llm_analysis, some e.abnormal⟩

/-- The back-fill loop of monitor.py lines 409-411. -/
def backfill (llm_result : String) (ab : Bool) (es : List MatchedEvent) : List MatchedEvent :=
  es.map (fun e => { e with llm_analysis := llm_result, abnormal := ab })

/-- Observable outcome of one run (the dict returned at lines 448-454 plus
the persisted state). -/
structure RunResult where
  event_count : Nat
  hw_devices_found : Nat
  llm_analysis_performed : Bool
  llm_result : String
  events : List MatchedEvent
  summary : String
  stored_count : Nat
  db : List EventRow
  session_closed : Bool
deriving Repr, DecidableEq

/-- run_monitor from the event-log scan onward (steps 2 and 3 and session
close; lines 380-454). -/
def run_monitor (config : Config) (api_key : Option String)
    (session_id : Option Nat) (hw : Nat) (openOk : Bool)
    (batches : List (List EvtRecord)) (net : NetOutcome)
    (failAt : Option Nat) (dbOk : Bool) (db0 : List EventRow)
    (now : String) : Except String RunResult :=
  let llm_enabled := match api_key with
    | none => false
    | some _ => config.llm.enabled
  let scan := analyze_event_logs config openOk batches
  let event_count := scan.1
  let event_log_strings := scan.2.1
  let event_objects := scan.2.2
  let threshold := config.llm.check_threshold
  let summary0 := "이벤트 발견: " ++ toString event_count ++ "개, 장치 발견: " ++ toString hw ++ "개"
  if decide (threshold ≤ event_count) && llm_enabled then
    if apiKeyTruthy api_key then
      match analyze_logs_with_llm event_log_strings config api_key net with
      | Except.error e => Except.error e
      | Except.ok llm_result =>
        let is_abnormal := pyIn "비정상 패턴 의심됨" llm_result
        let summary := if is_abnormal then summary0 ++ ", 비정상 패턴 감지됨" else summary0
        let events2 := backfill llm_result is_abnormal event_objects
        let st :=
          if session_id.isSome && !events2.isEmpty then
            store_events failAt dbOk db0 now session_id (events2.map dictOf)
          else (0, db0)
        Except.ok ⟨event_count, hw, true, llm_result, events2, summary,
                   st.1, st.2, session_id.isSome⟩
    else
      Except.ok ⟨event_count, hw, false, "LLM 분석 미수행", event_objects,
                 summary0 ++ ", LLM 분석 실패 (API 키 없음)", 0, db0, session_id.isSome⟩
  else
    let summary := summary0 ++
      (if !llm_enabled then ", LLM 분석 비활성화됨" else ", LLM 분석 임계값 미달")
    let st :=
      if session_id.isSome && !event_objects.isEmpty then
        store_events failAt dbOk db0 now session_id (event_objects.map dictOf)
      else (0, db0)
    Except.ok ⟨event_count, hw, false, "LLM 분석 미수행", event_objects, summary,
               st.1, st.2, session_id.isSome⟩

/-! ## Concrete instances used by witnesses and counterexamples -/

/-- A well-formed detail line as analyze_event_logs emits it. -/
def goodLine : String := "시간: 2023-05-01 12:34:56, 소스: A, ID: 1, 메시지: m"

/-- A record whose source is "B". -/
def c1recB : EvtRecord := ⟨1, "B", "2023-05-01 12:34:56", "2023-05-01T12:34:56", MsgResult.ok "m"⟩

/-- Criteria with both lists empty. -/
def c1cfgEmpty : Config := { event_log := { target_sources := [], target_event_ids := [] } }

/-- Real criteria matching only source "A". -/
def c1cfgA : Config := { event_log := { target_sources := ["A"] } }

/-- Decidable check that preprocess_logs succeeds with a digest that is
neither empty nor the no-data sentinel (the guard of llm_analyzer.py
line 111). -/
def digestUsable (ld : List String) (m : Nat) : Bool :=
  match preprocess_logs ld m with
  | Except.ok d => !(d == "") && !(d == "분석할 관련 이벤트 로그 내용이 없습니다.")
  | Except.error _ => false

/-! ## Support lemmas -/

theorem strData_append (s t : String) : (s ++ t).data = s.data ++ t.data := rfl

theorem listLE_iff (p s : List Char) : listLE p s = true ↔ ∃ r, s = p ++ r := by
  induction p generalizing s with
  | nil => simp [listLE]
  | cons a ps ih =>
    cases s with
    | nil => simp [listLE]
    | cons b ss =>
      simp only [listLE, Bool.and_eq_true, beq_iff_eq, ih, List.cons_append, List.cons.injEq]
      constructor
      · rintro ⟨hab, r, rfl⟩
        exact ⟨r, hab.symm, rfl⟩
      · rintro ⟨r, hba, hr⟩
        exact ⟨hba.symm, r, hr⟩

theorem listSub_iff (p s : List Char) : listSub p s = true ↔ ∃ l r, s = l ++ p ++ r := by
  induction s with
  | nil =>
    cases p with
    | nil => simp [listSub, listLE]
    | cons a ps => simp [listSub, listLE]
  | cons c t ih =>
    simp only [listSub, Bool.or_eq_true, listLE_iff, ih]
    constructor
    · rintro (⟨r, hr⟩ | ⟨l, r, hr⟩)
      · exact ⟨[], r, by simpa using hr⟩
      · exact ⟨c :: l, r, by simp [hr]⟩
    · rintro ⟨l, r, hr⟩
      cases l with
      | nil => exact Or.inl ⟨r, by simpa using hr⟩
      | cons x xs =>
        right
        rw [List.cons_append, List.cons_append] at hr
        injection hr with h1 h2
        exact ⟨xs, r, h2⟩

theorem mem_joinNL (x : String) (ls : List String) (h : x ∈ ls) :
    ∃ l r, (joinNL ls).data = l ++ x.data ++ r := by
  induction ls with
  | nil => simp at h
  | cons a rest ih =>
    cases rest with
    | nil =>
      simp at h
      exact ⟨[], [], by simp [h, joinNL]⟩
    | cons b t =>
      rcases List.mem_cons.mp h with h1 | h2
      · refine ⟨[], ('\n' :: (joinNL (b :: t)).data), ?_⟩
        simp [joinNL, strData_append, h1]
      · rcases ih h2 with ⟨l, r, hr⟩
        refine ⟨a.data ++ ['\n'] ++ l, r, ?_⟩
        simp [joinNL, strData_append, hr]

theorem pyIn_of_mem_joinNL (x : String) (ls : List String) (h : x ∈ ls) :
    pyIn x (joinNL ls) = true := by
  rcases mem_joinNL x ls h with ⟨l, r, hr⟩
  exact (listSub_iff _ _).mpr ⟨l, r, hr⟩

theorem length_insertEntry (e : PEntry) (l : List PEntry) :
    (insertEntry e l).length = l.length + 1 := by
  induction l with
  | nil => rfl
  | cons b t ih =>
    simp only [insertEntry]
    split
    · simp [ih]
    · simp

theorem length_sortFold (l : List PEntry) :
    ∀ acc, (List.foldl (fun acc e => insertEntry e acc) acc l).length = acc.length + l.length := by
  induction l with
  | nil => intro acc; simp
  | cons e t ih =>
    intro acc
    simp only [List.foldl_cons, List.length_cons]
    rw [ih (insertEntry e acc), length_insertEntry]
    omega

theorem length_sortEntries (l : List PEntry) : (sortEntries l).length = l.length := by
  simpa [sortEntries] using length_sortFold l []

theorem mem_renderGroups {k : String} {es : List PEntry} {x : String}
    (gs : List (String × List PEntry)) (h1 : (k, es) ∈ gs)
    (h2 : x ∈ renderGroup k es) : x ∈ renderGroups gs := by
  induction gs with
  | nil => simp at h1
  | cons g rest ih =>
    obtain ⟨k2, es2⟩ := g
    rcases List.mem_cons.mp h1 with he | hm
    · rw [Prod.mk.injEq] at he
      simp only [renderGroups, List.mem_append]
      exact Or.inl (by rw [← he.1, ← he.2]; exact h2)
    · simp only [renderGroups, List.mem_append]
      exact Or.inr (ih hm)

theorem processAll_len (ec : EvtConfig) (l : List EvtRecord) :
    (processAll ec l).1 = (processAll ec l).2.1.length ∧
    (processAll ec l).1 = (processAll ec l).2.2.length := by
  induction l with
  | nil => simp [processAll]
  | cons r rest ih =>
    obtain ⟨h1, h2⟩ := ih
    simp only [processAll]
    split
    · constructor <;> simp [List.length_cons, ← h1, ← h2]
    · exact ⟨h1, h2⟩

theorem scanBatches_len (ec : EvtConfig) (batches : List (List EvtRecord)) :
    ∀ tr, (scanBatches ec batches tr).1 = (scanBatches ec batches tr).2.1.length ∧
      (scanBatches ec batches tr).1 = (scanBatches ec batches tr).2.2.length := by
  induction batches with
  | nil => intro tr; simp [scanBatches]
  | cons b rest ih =>
    intro tr
    simp only [scanBatches]
    split
    · simp
    · split
      · simp
      · obtain ⟨hp1, hp2⟩ := processAll_len ec (b.take (min b.length (ec.max_events - tr)))
        split
        · constructor <;> simp [List.length_append, ← hp1, ← hp2]
        · obtain ⟨hq1, hq2⟩ := ih (tr + min b.length (ec.max_events - tr))
          constructor <;> simp [List.length_append, ← hp1, ← hp2, ← hq1, ← hq2]

theorem mkEvent_abnormal (r : EvtRecord) : (mkEvent r).abnormal = false := by
  cases hm : r.msg <;> simp [mkEvent, hm]

theorem processAll_abnormal (ec : EvtConfig) (l : List EvtRecord) :
    ∀ e ∈ (processAll ec l).2.2, e.abnormal = false := by
  induction l with
  | nil => simp [processAll]
  | cons r rest ih =>
    simp only [processAll]
    split
    · intro e he
      rcases List.mem_cons.mp he with h1 | h2
      · rw [h1]; exact mkEvent_abnormal r
      · exact ih e h2
    · exact ih

theorem scanBatches_abnormal (ec : EvtConfig) (batches : List (List EvtRecord)) :
    ∀ tr, ∀ e ∈ (scanBatches ec batches tr).2.2, e.abnormal = false := by
  induction batches with
  | nil => intro tr; simp [scanBatches]
  | cons b rest ih =>
    intro tr
    simp only [scanBatches]
    split
    · simp
    · split
      · simp
      · split
        · intro e he
          simp only [List.append_nil] at he
          exact processAll_abnormal ec _ e he
        · intro e he
          rcases List.mem_append.mp he with h1 | h2
          · exact processAll_abnormal ec _ e h1
          · exact ih _ e h2

theorem analyze_abnormal (config : Config) (openOk : Bool)
    (batches : List (List EvtRecord)) :
    ∀ e ∈ (analyze_event_logs config openOk batches).2.2, e.abnormal = false := by
  simp only [analyze_event_logs]
  split
  · simp
  · split
    · exact scanBatches_abnormal config.event_log batches 0
    · simp

theorem backfill_abnormal (s : String) (b : Bool) (l : List MatchedEvent) :
    ∀ e ∈ backfill s b l, e.abnormal = b := by
  intro e he
  simp only [backfill, List.mem_map] at he
  rcases he with ⟨a, _, rfl⟩
  rfl

theorem insertLoop_ok (now : String) (failAt : Option Nat) (evs : List EventDict) :
    ∀ idx count pending, (∀ i, failAt = some i → i < idx ∨ idx + evs.length ≤ i) →
      insertLoop now failAt idx count pending evs =
        some (count + evs.length, pending ++ evs.map (rowOf now)) := by
  induction evs with
  | nil => intro idx count pending _; simp [insertLoop]
  | cons e rest ih =>
    intro idx count pending h
    have hne : failAt ≠ some idx := by
      intro hc
      rcases h idx hc with h1 | h2
      · omega
      · simp only [List.length_cons] at h2
        omega
    simp only [insertLoop]
    rw [if_neg (by simpa using hne)]
    rw [ih (idx + 1) (count + 1) (pending ++ [rowOf now e])
      (by intro i hi; rcases h i hi with h1 | h2
          · left; omega
          · right; simp only [List.length_cons] at h2 ⊢; omega)]
    simp only [List.map_cons, List.append_assoc, List.singleton_append, List.length_cons]
    have hc : count + 1 + rest.length = count + (rest.length + 1) := by omega
    rw [hc]

theorem insertLoop_fail (now : String) (failAt : Option Nat) (evs : List EventDict) :
    ∀ idx count pending i, failAt = some i → idx ≤ i → i < idx + evs.length →
      insertLoop now failAt idx count pending evs = none := by
  induction evs with
  | nil => intro idx count pending i _ h1 h2; simp at h2; omega
  | cons e rest ih =>
    intro idx count pending i hf h1 h2
    simp only [insertLoop]
    by_cases hi : i = idx
    · rw [if_pos (by simp [hf, hi])]
    · rw [if_neg (by simp only [hf, beq_iff_eq, Option.some.injEq]; omega)]
      refine ih (idx + 1) (count + 1) (pending ++ [rowOf now e]) i hf (by omega) ?_
      simp only [List.length_cons] at h2
      omega

theorem respResult_isOk (kws : List String) (resp : LlmResp) :
    (respResult kws resp).isOk = true := by
  rcases resp with ⟨choices⟩
  cases choices with
  | none => rfl
  | some cs =>
    cases cs with
    | nil => rfl
    | cons c rest =>
      rcases c with ⟨msg⟩
      cases msg with
      | none => rfl
      | some m =>
        rcases m with ⟨content⟩
        cases content with
        | none => rfl
        | some s =>
          show (if (s == "") = true then Except.ok "LLM 응답 형식 오류"
                else Except.ok (classifyResponse kws s)).isOk = true
          split <;> rfl

theorem netResult_isOk (kws : List String) (net : NetOutcome) :
    (netResult kws net).isOk = true := by
  cases net with
  | timeout => rfl
  | connError => rfl
  | reqError n => rfl
  | jsonError => rfl
  | unknown => rfl
  | ok resp => exact respResult_isOk kws resp

/-! ## Claim theorems -/

/-- C1 (counterexample): with both criteria lists empty, analyze_event_logs
returns exactly `(0, [], [])` — the very same value a real scan returns when
no record matches — so the refusal is not distinguishable from a real
zero-match scan result in the function's return value. -/
theorem C1_counterexample :
    analyze_event_logs c1cfgEmpty true [[c1recB]] = analyze_event_logs c1cfgA true [[c1recB]] ∧
    (analyze_event_logs c1cfgEmpty true [[c1recB]]).1 = 0 := by
  exact ⟨rfl, rfl⟩

/-- C1 (amended): for every configuration with both the target-source list
and the target-event-ID list empty, analyze_event_logs refuses to scan —
it returns before opening the log, independently of the log contents and
of log accessibility — but the refusal value is the plain zero triple
`(0, [], [])`, the same shape as a real zero-match scan result; the
configuration error is reported only through logging. -/
theorem C1_amended_theorem (config : Config) (openOk : Bool)
    (batches : List (List EvtRecord))
    (h1 : config.event_log.target_sources = [])
    (h2 : config.event_log.target_event_ids = []) :
    analyze_event_logs config openOk batches = (0, [], []) := by
  simp [analyze_event_logs, h1, h2]

/-- C1 witness: the amended theorem applied at a concrete empty-criteria
configuration and a non-empty log. -/
theorem C1_witness :
    analyze_event_logs c1cfgEmpty false [[c1recB], []] = (0, [], []) :=
  C1_amended_theorem c1cfgEmpty false [[c1recB], []] rfl rfl

/-- C2: for every run of the log scan that completes without a log-access
error (the log opened successfully), the returned match count equals the
length of the detail-line list and the length of the structured-record
list: each matched record contributes exactly one entry to both, including
records whose message formatting failed. -/
theorem C2_theorem (config : Config) (batches : List (List EvtRecord)) :
    (analyze_event_logs config true batches).1 =
      (analyze_event_logs config true batches).2.1.length ∧
    (analyze_event_logs config true batches).1 =
      (analyze_event_logs config true batches).2.2.length := by
  simp only [analyze_event_logs]
  split
  · simp
  · rw [if_pos trivial]
    exact scanBatches_len config.event_log batches 0

/-- C3: a record is counted as a match if and only if its source name is in
the configured source list OR the lower 16 bits of its raw event ID
(`EventID & 0xFFFF`, i.e. the raw ID modulo 2^16) is in the configured
event-ID list; membership in either set alone suffices.  The second
conjunct ties the decision to the scan's counting loop. -/
theorem C3_theorem (sources : List String) (ids : List Int) (src : String) (raw : Int) :
    (matchDecision sources ids src (raw.emod 65536) = true ↔
      src ∈ sources ∨ raw.emod 65536 ∈ ids) ∧
    ∀ (ec : EvtConfig) (r : EvtRecord) (rest : List EvtRecord),
      (processAll ec (r :: rest)).1 =
        (if matchDecision ec.target_sources ec.target_event_ids r.sourceName (eidOf r)
         then 1 else 0) + (processAll ec rest).1 := by
  constructor
  · simp only [matchDecision]
    by_cases hs : src ∈ sources
    · have hne : sources ≠ [] := List.ne_nil_of_mem hs
      simp [hs, hne]
    · by_cases hi : raw.emod 65536 ∈ ids
      · have hne : ids ≠ [] := List.ne_nil_of_mem hi
        simp [hs, hi, hne]
      · simp [hs, hi]
  · intro ec r rest
    simp only [processAll]
    split
    · omega
    · omega

/-- C10: store_events is atomic and total on the event fields: with a live
connection and no sqlite error it inserts exactly one row per input event
(with `.get` defaults: `now` for a missing timestamp, empty strings for
source/message/analysis, 0 for event_id, and abnormal mapped to 1/0) and
returns the number of input events; an injected sqlite error during any
insert of the batch, or an unavailable connection, yields count 0 and
leaves the table unchanged (close without commit rolls the batch back). -/
theorem C10_theorem (failAt : Option Nat) (db : List EventRow) (now : String)
    (session_id : Option Nat) (events : List EventDict) :
    ((∀ i, failAt = some i → events.length ≤ i) →
      store_events failAt true db now session_id events =
        (events.length, db ++ events.map (rowOf now))) ∧
    (∀ i, failAt = some i → i < events.length →
      store_events failAt true db now session_id events = (0, db)) ∧
    (store_events failAt false db now session_id events = (0, db)) ∧
    rowOf now ⟨none, none, none, none, none, none⟩ = ⟨now, "", 0, "", "", 0⟩ := by
  refine ⟨?_, ?_, ?_, rfl⟩
  · intro h
    simp only [store_events]
    by_cases he : events.isEmpty
    · have : events = [] := List.isEmpty_iff.mp he
      subst this
      simp
    · rw [if_neg (by simpa using he), if_neg (by simp)]
      rw [insertLoop_ok now failAt events 0 0 []
        (by intro i hi; right; simpa using h i hi)]
      simp
  · intro i hf hlt
    simp only [store_events]
    have hne : ¬events.isEmpty = true := by
      intro hc
      rw [List.isEmpty_iff.mp hc] at hlt
      simp at hlt
    rw [if_neg hne, if_neg (by simp)]
    rw [insertLoop_fail now failAt events 0 0 [] i hf (by omega) (by omega)]
  · simp only [store_events]
    by_cases he : events.isEmpty
    · rw [if_pos he]
    · rw [if_neg he, if_pos (by simp)]

/-- C10 witness: the success case at a two-event batch with no injected
failure, and the error case with a failure at the first insert. -/
theorem C10_witness :
    store_events none true [] "NOW" (some 1)
      [⟨some "t1", some "S", some 7, some "m1", some "", some true⟩, {}] =
      (2, [⟨"t1", "S", 7, "m1", "", 1⟩, ⟨"NOW", "", 0, "", "", 0⟩]) ∧
    store_events (some 0) true [⟨"t0", "S0", 1, "m0", "", 0⟩] "NOW" (some 1)
      [⟨some "t1", some "S", some 7, some "m1", some "", some true⟩] =
      (0, [⟨"t0", "S0", 1, "m0", "", 0⟩]) := by
  constructor
  · have h := (C10_theorem none [] "NOW" (some 1)
      [⟨some "t1", some "S", some 7, some "m1", some "", some true⟩, {}]).1
      (by intro i hi; simp at hi)
    simpa using h
  · exact (C10_theorem (some 0) [⟨"t0", "S0", 1, "m0", "", 0⟩] "NOW" (some 1)
      [⟨some "t1", some "S", some 7, some "m1", some "", some true⟩]).2.1 0 rfl (by simp)

/-- C4 (counterexample): a non-empty input line with no time-pattern match
is not retained at all: on input `["hello"]` the summarizer raises
IndexError instead of producing a digest, and on a two-line window with
one unparseable line only 1 entry is retained, so the reported total (1)
differs from the window size (2). -/
theorem C4_counterexample :
    preprocess_logs ["hello"] 20 = Except.error "IndexError" ∧
    (parsedLogs ((["시간: 2023-05-01 12:34:56, 소스: A, ID: 1, 메시지: m",
      "hello"]).take 20)).length = 1 := by
  exact ⟨rfl, rfl⟩

/-- C4 (amended): within the truncated window, a line whose extracted time
string fails datetime parsing is retained with the sentinel epoch time and
the "파싱 실패" source label, but a line with no time-pattern match at all
is silently dropped; consequently the total reported in the digest equals
the number of pattern-matching lines of the window (not the window size),
and when a non-empty window retains no entry preprocess_logs raises an
IndexError instead of returning a digest. -/
theorem C4_amended_theorem :
    (∀ (l t : String), searchTime l.data = some t → parseDT t = none →
      lineEntry l = some ⟨"1970-01-01 00:00:00", minKey, "파싱 실패", "0", l⟩) ∧
    (∀ l : String, searchTime l.data = none → lineEntry l = none) ∧
    (∀ (ld : List String) (m : Nat), ld ≠ [] → parsedLogs (ld.take m) = [] →
      preprocess_logs ld m = Except.error "IndexError") ∧
    (∀ (ld : List String) (m : Nat) (d : String), ld ≠ [] →
      preprocess_logs ld m = Except.ok d →
      pyIn ("- 총 로그 수: " ++ toString (parsedLogs (ld.take m)).length ++ "개") d = true) := by
  refine ⟨?_, ?_, ?_, ?_⟩
  · intro l t h1 h2
    simp [lineEntry, h1, h2]
  · intro l h
    simp [lineEntry, h]
  · intro ld m h1 h2
    have hs : sortEntries (parsedLogs (ld.take m)) = [] := by rw [h2]; rfl
    simp only [preprocess_logs]
    rw [if_neg (by simp only [List.isEmpty_iff]; exact h1)]
    rw [hs]
  · intro ld m d h1 hp
    simp only [preprocess_logs] at hp
    rw [if_neg (by simp only [List.isEmpty_iff]; exact h1)] at hp
    cases hsort : sortEntries (parsedLogs (ld.take m)) with
    | nil =>
      rw [hsort] at hp
      exact absurd hp (by simp)
    | cons s0 rest =>
      rw [hsort] at hp
      simp only [Except.ok.injEq] at hp
      have hlen : (parsedLogs (ld.take m)).length = (s0 :: rest).length := by
        rw [← length_sortEntries (parsedLogs (ld.take m)), hsort]
      rw [hlen, ← hp]
      exact pyIn_of_mem_joinNL _ _ (by simp)

/-- C4 witness: the amended theorem applied at concrete inputs: the crash
case at `["hello"]`, the sentinel-retention case at a line whose captured
time "2023-99-01 12:34:56" fails strptime, and the digest-count case at a
single well-formed line. -/
theorem C4_witness :
    preprocess_logs ["hello"] 20 = Except.error "IndexError" ∧
    lineEntry "시간: 2023-99-01 12:34:56, 소스: A, ID: 7, 메시지: m" =
      some ⟨"1970-01-01 00:00:00", minKey, "파싱 실패", "0",
        "시간: 2023-99-01 12:34:56, 소스: A, ID: 7, 메시지: m"⟩ ∧
    pyIn ("- 총 로그 수: " ++ toString (parsedLogs ([goodLine].take 20)).length ++ "개")
      ((preprocess_logs [goodLine] 20).toOption.getD "") = true := by
  refine ⟨?_, ?_, ?_⟩
  · exact C4_amended_theorem.2.2.1 ["hello"] 20 (by simp) rfl
  · exact C4_amended_theorem.1 _ "2023-99-01 12:34:56" rfl rfl
  · exact C4_amended_theorem.2.2.2 [goodLine] 20 _ (by simp) rfl

/-- C5: for every (source, event-ID) group formed by the summarizer, a
group of at most 5 entries is rendered in full, and a group of more than 5
entries is rendered as exactly the first 3 and last 2 entries (5 lines)
after an explicit truncation note stating how many of the total are shown;
every rendered line of a group of the digest appears in the digest text. -/
theorem C5_theorem :
    (∀ (k : String) (logs : List PEntry), logs.length ≤ 5 →
      renderGroup k logs =
        ("## " ++ k ++ " - " ++ toString logs.length ++ "건") ::
          (logs.map entryLine ++ [""])) ∧
    (∀ (k : String) (logs : List PEntry), 5 < logs.length →
      renderGroup k logs =
        ("## " ++ k ++ " - " ++ toString logs.length ++ "건") ::
          ("전체 " ++ toString logs.length ++ "건 중 처음 3건과 마지막 2건만 표시합니다.") ::
          ((logs.take 3 ++ logs.drop (logs.length - 2)).map entryLine ++ [""]) ∧
      (logs.take 3 ++ logs.drop (logs.length - 2)).length = 5) ∧
    (∀ (ld : List String) (m : Nat) (d k : String) (logs : List PEntry) (x : String),
      preprocess_logs ld m = Except.ok d →
      (k, logs) ∈ groupsOf (sortEntries (parsedLogs (ld.take m))) →
      x ∈ renderGroup k logs →
      pyIn x d = true) := by
  refine ⟨?_, ?_, ?_⟩
  · intro k logs h
    simp only [renderGroup]
    rw [if_neg (by omega)]
  · intro k logs h
    constructor
    · simp only [renderGroup]
      rw [if_pos (by omega)]
    · simp only [List.length_append, List.length_take, List.length_drop]
      omega
  · intro ld m d k logs x hp hg hx
    by_cases h1 : ld = []
    · subst h1
      simp [parsedLogs, sortEntries, groupsOf] at hg
    · simp only [preprocess_logs] at hp
      rw [if_neg (by simp only [List.isEmpty_iff]; exact h1)] at hp
      cases hsort : sortEntries (parsedLogs (ld.take m)) with
      | nil =>
        rw [hsort] at hp
        exact absurd hp (by simp)
      | cons s0 rest =>
        rw [hsort] at hp
        simp only [Except.ok.injEq] at hp
        rw [← hp]
        rw [hsort] at hg
        refine pyIn_of_mem_joinNL _ _ ?_
        simp only [List.cons_append, List.mem_cons, List.mem_append]
        right; right; right; right
        exact Or.inr (mem_renderGroups _ hg hx)

/-- C5 witness: the theorem applied at a concrete 2-entry group (shown in
full) and a concrete 6-entry group (3 head + 2 tail entries plus the
truncation note). -/
theorem C5_witness :
    renderGroup "B (ID: 2)" [⟨"t1", 1, "B", "2", "L1"⟩, ⟨"t2", 2, "B", "2", "L2"⟩] =
      ["## B (ID: 2) - 2건", "[t1] L1", "[t2] L2", ""] ∧
    renderGroup "A (ID: 1)"
      [⟨"t1", 1, "A", "1", "L1"⟩, ⟨"t2", 2, "A", "1", "L2"⟩, ⟨"t3", 3, "A", "1", "L3"⟩,
       ⟨"t4", 4, "A", "1", "L4"⟩, ⟨"t5", 5, "A", "1", "L5"⟩, ⟨"t6", 6, "A", "1", "L6"⟩] =
      ["## A (ID: 1) - 6건", "전체 6건 중 처음 3건과 마지막 2건만 표시합니다.",
       "[t1] L1", "[t2] L2", "[t3] L3", "[t5] L5", "[t6] L6", ""] := by
  constructor
  · have h := C5_theorem.1 "B (ID: 2)"
      [⟨"t1", 1, "B", "2", "L1"⟩, ⟨"t2", 2, "B", "2", "L2"⟩] (by simp)
    rw [h]
    rfl
  · have h := (C5_theorem.2.1 "A (ID: 1)"
      [⟨"t1", 1, "A", "1", "L1"⟩, ⟨"t2", 2, "A", "1", "L2"⟩, ⟨"t3", 3, "A", "1", "L3"⟩,
       ⟨"t4", 4, "A", "1", "L4"⟩, ⟨"t5", 5, "A", "1", "L5"⟩, ⟨"t6", 6, "A", "1", "L6"⟩]
      (by simp)).1
    rw [h]
    rfl

/-- C6 (counterexample): with configured keyword "DISCONNECT" and model
response "disconnect detected", the keyword appears in the response under
case-insensitive comparison, yet the code classifies the response as
normal, because line 199 lowercases only the response and compares the
keyword verbatim. -/
theorem C6_counterexample :
    classifyResponse ["DISCONNECT"] "disconnect detected" =
      "정상 범위 추정: disconnect detected" ∧
    pyIn (pyLower "DISCONNECT") (pyLower "disconnect detected") = true := by
  exact ⟨rfl, rfl⟩

/-- C6 (amended): a successfully received response is classified abnormal
if and only if some configured keyword occurs verbatim as a substring of
the lowercased response text (so a keyword containing an uppercase letter
never matches); when classified abnormal the returned text carries the
"비정상 패턴 의심됨" marker, and in every completed run each structured
record's abnormal flag equals the presence of that marker in the run's
analysis-result text (in particular, all records of a batch get the same
flag, true exactly when the marker is present). -/
theorem C6_amended_theorem :
    (∀ (kws : List String) (c : String),
      classifyAbnormal kws c = true ↔
        ∃ k ∈ kws, ∃ l r, (pyLower c).data = l ++ k.data ++ r) ∧
    (∀ (kws : List String) (c : String), classifyAbnormal kws c = true →
      pyIn "비정상 패턴 의심됨" (classifyResponse kws c) = true) ∧
    (∀ (config : Config) (api_key : Option String) (session_id : Option Nat)
       (hw : Nat) (openOk : Bool) (batches : List (List EvtRecord))
       (net : NetOutcome) (failAt : Option Nat) (dbOk : Bool)
       (db0 : List EventRow) (now : String) (res : RunResult),
      run_monitor config api_key session_id hw openOk batches net failAt dbOk db0 now =
        Except.ok res →
      ∀ e ∈ res.events, e.abnormal = pyIn "비정상 패턴 의심됨" res.llm_result) := by
  refine ⟨?_, ?_, ?_⟩
  · intro kws c
    simp only [classifyAbnormal, List.any_eq_true, pyIn, listSub_iff]
  · intro kws c h
    simp only [classifyResponse, h, if_true]
    refine (listSub_iff _ _).mpr ⟨[], (": " ++ c).data, ?_⟩
    simp only [List.nil_append]
    rfl
  · intro config api_key sid hw openOk batches net failAt dbOk db0 now res h e he
    simp only [run_monitor] at h
    split at h
    · split at h
      · cases hllm : analyze_logs_with_llm
          (analyze_event_logs config openOk batches).2.1 config api_key net with
        | error err =>
          rw [hllm] at h
          exact absurd h (by simp)
        | ok lr =>
          rw [hllm] at h
          simp only [Except.ok.injEq] at h
          subst h
          exact backfill_abnormal _ _ _ e he
      · simp only [Except.ok.injEq] at h
        subst h
        have hf : pyIn "비정상 패턴 의심됨" "LLM 분석 미수행" = false := by decide
        rw [hf]
        exact analyze_abnormal config openOk batches e he
    · simp only [Except.ok.injEq] at h
      subst h
      have hf : pyIn "비정상 패턴 의심됨" "LLM 분석 미수행" = false := by decide
      rw [hf]
      exact analyze_abnormal config openOk batches e he

/-- C6 witness: the amended theorem applied at a concrete abnormal
classification and at a concrete completed run whose single record keeps
abnormal = false because the result text has no marker. -/
theorem C6_witness :
    pyIn "비정상 패턴 의심됨" (classifyResponse ["disconnect"] "disconnect found") = true ∧
    (∀ e ∈ ((run_monitor c1cfgA (some "K") none 0 true
        [[⟨1, "A", "2023-05-01 12:34:56", "2023-05-01T12:34:56", MsgResult.ok "m"⟩]]
        NetOutcome.timeout none true [] "T").toOption.getD
          ⟨0, 0, false, "", [], "", 0, [], false⟩).events,
      e.abnormal = pyIn "비정상 패턴 의심됨"
        ((run_monitor c1cfgA (some "K") none 0 true
          [[⟨1, "A", "2023-05-01 12:34:56", "2023-05-01T12:34:56", MsgResult.ok "m"⟩]]
          NetOutcome.timeout none true [] "T").toOption.getD
            ⟨0, 0, false, "", [], "", 0, [], false⟩).llm_result) := by
  constructor
  · exact C6_amended_theorem.2.1 ["disconnect"] "disconnect found" (by decide)
  · exact C6_amended_theorem.2.2 c1cfgA (some "K") none 0 true
      [[⟨1, "A", "2023-05-01 12:34:56", "2023-05-01T12:34:56", MsgResult.ok "m"⟩]]
      NetOutcome.timeout none true [] "T" _ rfl

/-- C7: given that the analysis feature is enabled and a credential is
present, the orchestrator invokes the analysis client exactly when the
match count reaches the configured threshold: in every completed run the
llm_analysis_performed flag is true if and only if
check_threshold <= event_count (so a run at the threshold escalates and a
run one below it does not). -/
theorem C7_theorem (config : Config) (api_key : Option String) (k : String)
    (session_id : Option Nat) (hw : Nat) (openOk : Bool)
    (batches : List (List EvtRecord)) (net : NetOutcome) (failAt : Option Nat)
    (dbOk : Bool) (db0 : List EventRow) (now : String) (res : RunResult)
    (hk : api_key = some k) (hk2 : k ≠ "") (hen : config.llm.enabled = true)
    (hrun : run_monitor config api_key session_id hw openOk batches net failAt dbOk db0 now =
      Except.ok res) :
    (res.llm_analysis_performed = true ↔ config.llm.check_threshold ≤ res.event_count) := by
  subst hk
  simp only [run_monitor, hen] at hrun
  split at hrun
  · rename_i hcond
    have htr : apiKeyTruthy (some k) = true := by
      simp [apiKeyTruthy, apiKeyFalsy, hk2]
    rw [if_pos htr] at hrun
    cases hllm : analyze_logs_with_llm
        (analyze_event_logs config openOk batches).2.1 config (some k) net with
    | error err =>
      rw [hllm] at hrun
      exact absurd hrun (by simp)
    | ok lr =>
      rw [hllm] at hrun
      simp only [Except.ok.injEq] at hrun
      subst hrun
      simp only [Bool.and_eq_true, decide_eq_true_eq] at hcond
      simpa using hcond.1
  · rename_i hcond
    simp only [Except.ok.injEq] at hrun
    subst hrun
    simp only [Bool.and_true, decide_eq_true_eq] at hcond
    constructor
    · intro hfalse
      exact absurd hfalse (by simp)
    · intro hle
      exact absurd hle hcond

/-- C7 witness: a concrete run at threshold 1 with one matching record and
a credential present escalates (the iff applied at a completed run). -/
theorem C7_witness :
    (((run_monitor c1cfgA (some "K") none 0 true [[⟨1, "A", "2023-05-01 12:34:56",
        "2023-05-01T12:34:56", MsgResult.ok "m"⟩]] NetOutcome.timeout none true [] "T")
      ).toOption.getD ⟨0, 0, false, "", [], "", 0, [], false⟩).llm_analysis_performed = true ↔
    c1cfgA.llm.check_threshold ≤
      (((run_monitor c1cfgA (some "K") none 0 true [[⟨1, "A", "2023-05-01 12:34:56",
        "2023-05-01T12:34:56", MsgResult.ok "m"⟩]] NetOutcome.timeout none true [] "T")
      ).toOption.getD ⟨0, 0, false, "", [], "", 0, [], false⟩).event_count := by
  exact C7_theorem c1cfgA (some "K") "K" none 0 true
    [[⟨1, "A", "2023-05-01 12:34:56", "2023-05-01T12:34:56", MsgResult.ok "m"⟩]]
    NetOutcome.timeout none true [] "T" _ rfl (by decide) rfl rfl

/-- C8 (counterexample): with a null session id and a non-empty batch, both
persistence operations insert rows and return 1, not 0: neither checks the
session id (their empty-batch guard is `if not events` / `if not devices`,
and the session id is otherwise unused). -/
theorem C8_counterexample :
    store_events none true [] "T" none
      [⟨some "t", some "S", some 1, some "m", some "", some false⟩] =
      (1, [⟨"t", "S", 1, "m", "", 0⟩]) ∧
    store_hardware_info none true [] "T" none "COM"
      [⟨some "P", some "D", some "H"⟩] =
      (1, [⟨"T", "COM", "P", "D", "H"⟩]) := by
  exact ⟨rfl, rfl⟩

/-- C8 (amended): store_events and store_hardware_info ignore the session
id entirely (their result is independent of it); each is a no-op returning
count 0 exactly when the batch is empty or the database connection is
unavailable.  The null-session no-op guarantee is instead provided by the
orchestrator's call sites, which skip both stores when the session id is
null, so a completed run with a null session id writes nothing and reports
a stored count of 0. -/
theorem C8_amended_theorem :
    (∀ (failAt : Option Nat) (dbOk : Bool) (db : List EventRow) (now : String)
       (sid sid2 : Option Nat) (events : List EventDict),
      store_events failAt dbOk db now sid events =
        store_events failAt dbOk db now sid2 events) ∧
    (∀ (failAt : Option Nat) (dbOk : Bool) (db : List EventRow) (now : String)
       (sid : Option Nat), store_events failAt dbOk db now sid [] = (0, db)) ∧
    (∀ (failAt : Option Nat) (db : List EventRow) (now : String)
       (sid : Option Nat) (events : List EventDict),
      store_events failAt false db now sid events = (0, db)) ∧
    (∀ (failAt : Option Nat) (dbOk : Bool) (db : List HwRow) (now : String)
       (sid sid2 : Option Nat) (ht : String) (devices : List DeviceDict),
      store_hardware_info failAt dbOk db now sid ht devices =
        store_hardware_info failAt dbOk db now sid2 ht devices) ∧
    (∀ (failAt : Option Nat) (dbOk : Bool) (db : List HwRow) (now : String)
       (sid : Option Nat) (ht : String),
      store_hardware_info failAt dbOk db now sid ht [] = (0, db)) ∧
    (∀ (failAt : Option Nat) (db : List HwRow) (now : String)
       (sid : Option Nat) (ht : String) (devices : List DeviceDict),
      store_hardware_info failAt false db now sid ht devices = (0, db)) ∧
    (∀ (config : Config) (api_key : Option String) (hw : Nat) (openOk : Bool)
       (batches : List (List EvtRecord)) (net : NetOutcome) (failAt : Option Nat)
       (dbOk : Bool) (db0 : List EventRow) (now : String) (res : RunResult),
      run_monitor config api_key none hw openOk batches net failAt dbOk db0 now =
        Except.ok res →
      res.db = db0 ∧ res.stored_count = 0) := by
  refine ⟨fun _ _ _ _ _ _ _ => rfl, fun _ _ _ _ _ => rfl, ?_,
    fun _ _ _ _ _ _ _ _ => rfl, fun _ _ _ _ _ _ => rfl, ?_, ?_⟩
  · intro failAt db now sid events
    simp only [store_events]
    by_cases he : events.isEmpty
    · rw [if_pos he]
    · rw [if_neg he, if_pos (by simp)]
  · intro failAt db now sid ht devices
    simp only [store_hardware_info]
    by_cases he : devices.isEmpty
    · rw [if_pos he]
    · rw [if_neg he, if_pos (by simp)]
  · intro config api_key hw openOk batches net failAt dbOk db0 now res h
    simp only [run_monitor, Option.isSome_none, Bool.false_and, if_false] at h
    split at h
    · split at h
      · cases hllm : analyze_logs_with_llm
          (analyze_event_logs config openOk batches).2.1 config api_key net with
        | error err =>
          rw [hllm] at h
          exact absurd h (by simp)
        | ok lr =>
          rw [hllm] at h
          simp only [Except.ok.injEq] at h
          subst h
          exact ⟨rfl, rfl⟩
      · simp only [Except.ok.injEq] at h
        subst h
        exact ⟨rfl, rfl⟩
    · simp only [Except.ok.injEq] at h
      subst h
      exact ⟨rfl, rfl⟩

/-- C8 witness: the empty-batch no-op at a live connection, the
unavailable-connection no-op on a non-empty batch, and a concrete
completed null-session run that stores nothing. -/
theorem C8_witness :
    store_events none true [⟨"t0", "S0", 1, "m0", "", 0⟩] "T" (some 3) [] =
      (0, [⟨"t0", "S0", 1, "m0", "", 0⟩]) ∧
    store_events none false [] "T" (some 3)
      [⟨some "t", some "S", some 1, some "m", some "", some false⟩] = (0, []) ∧
    ((run_monitor c1cfgA (some "K") none 0 true [[c1recB]] NetOutcome.timeout
        none true [⟨"t0", "S0", 1, "m0", "", 0⟩] "T").toOption.getD
      ⟨0, 0, false, "", [], "", 0, [], false⟩).db = [⟨"t0", "S0", 1, "m0", "", 0⟩] ∧
    ((run_monitor c1cfgA (some "K") none 0 true [[c1recB]] NetOutcome.timeout
        none true [⟨"t0", "S0", 1, "m0", "", 0⟩] "T").toOption.getD
      ⟨0, 0, false, "", [], "", 0, [], false⟩).stored_count = 0 := by
  refine ⟨C8_amended_theorem.2.1 none true [⟨"t0", "S0", 1, "m0", "", 0⟩] "T" (some 3),
    C8_amended_theorem.2.2.1 none [] "T" (some 3)
      [⟨some "t", some "S", some 1, some "m", some "", some false⟩], ?_, ?_⟩
  · exact (C8_amended_theorem.2.2.2.2.2.2 c1cfgA (some "K") 0 true [[c1recB]]
      NetOutcome.timeout none true [⟨"t0", "S0", 1, "m0", "", 0⟩] "T" _ rfl).1
  · exact (C8_amended_theorem.2.2.2.2.2.2 c1cfgA (some "K") 0 true [[c1recB]]
      NetOutcome.timeout none true [⟨"t0", "S0", 1, "m0", "", 0⟩] "T" _ rfl).2

/-- C9 (counterexample): an input whose lines contain no time pattern makes
preprocess_logs raise IndexError at llm_analyzer.py line 72; since the
preprocessing call at line 110 sits outside the try block, the exception
propagates out of analyze_logs_with_llm to its caller (here, before any
network interaction). -/
theorem C9_counterexample :
    analyze_logs_with_llm ["hello"]
      { llm := { api_url := "u", model := "m" } } (some "k") NetOutcome.timeout =
      Except.error "IndexError" := by
  rfl

/-- C9 (amended): for every input whose digest preprocessing succeeds,
analyze_logs_with_llm never lets an exception propagate, and — given a
usable digest, a credential and a configured endpoint/model — maps each
failure mode of the model call to its fixed sentinel string (timeout,
connection error, request error carrying the exception class name, JSON
parse error, unknown error), with the sentinels pairwise distinct; inputs
whose window retains no parseable line instead make the preprocessing step
raise, and that exception escapes. -/
theorem C9_amended_theorem (ld : List String) (config : Config) (api_key : Option String)
    (hp : (preprocess_logs ld config.llm.max_logs).isOk = true) :
    (∀ net, (analyze_logs_with_llm ld config api_key net).isOk = true) ∧
    (digestUsable ld config.llm.max_logs = true → apiKeyFalsy api_key = false →
      config.llm.api_url ≠ "" → config.llm.model ≠ "" →
      (analyze_logs_with_llm ld config api_key NetOutcome.timeout =
         Except.ok "LLM API 시간 초과" ∧
       analyze_logs_with_llm ld config api_key NetOutcome.connError =
         Except.ok "LLM API 연결 오류" ∧
       (∀ n, analyze_logs_with_llm ld config api_key (NetOutcome.reqError n) =
         Except.ok ("LLM API 요청 오류: " ++ n)) ∧
       analyze_logs_with_llm ld config api_key NetOutcome.jsonError =
         Except.ok "LLM 응답 파싱 오류" ∧
       analyze_logs_with_llm ld config api_key NetOutcome.unknown =
         Except.ok "LLM 분석 중 알 수 없는 오류")) ∧
    List.Pairwise (fun a b => a ≠ b)
      ["LLM API 시간 초과", "LLM API 연결 오류", "LLM 응답 파싱 오류",
       "LLM 분석 중 알 수 없는 오류", "LLM 응답 형식 오류"] := by
  refine ⟨?_, ?_, by decide⟩
  · intro net
    cases hpp : preprocess_logs ld config.llm.max_logs with
    | error err =>
      rw [hpp] at hp
      exact absurd hp (by simp [Except.isOk, Except.toBool])
    | ok d =>
      simp only [analyze_logs_with_llm, hpp]
      split
      · rfl
      · split
        · rfl
        · split
          · rfl
          · exact netResult_isOk config.llm.abnormal_keywords net
  · intro hd hk hu hm
    cases hpp : preprocess_logs ld config.llm.max_logs with
    | error err =>
      rw [hpp] at hp
      exact absurd hp (by simp [Except.isOk, Except.toBool])
    | ok d =>
      simp only [digestUsable, hpp, Bool.and_eq_true, Bool.not_eq_true'] at hd
      have hcfg : ¬((config.llm.api_url == "") || (config.llm.model == "")) = true := by
        simp [hu, hm]
      refine ⟨?_, ?_, ?_, ?_, ?_⟩
      · simp only [analyze_logs_with_llm, hk, Bool.false_eq_true, if_false, hpp]
        rw [if_neg hcfg, if_neg (by simp [hd.1, hd.2])]
        rfl
      · simp only [analyze_logs_with_llm, hk, Bool.false_eq_true, if_false, hpp]
        rw [if_neg hcfg, if_neg (by simp [hd.1, hd.2])]
        rfl
      · intro n
        simp only [analyze_logs_with_llm, hk, Bool.false_eq_true, if_false, hpp]
        rw [if_neg hcfg, if_neg (by simp [hd.1, hd.2])]
        rfl
      · simp only [analyze_logs_with_llm, hk, Bool.false_eq_true, if_false, hpp]
        rw [if_neg hcfg, if_neg (by simp [hd.1, hd.2])]
        rfl
      · simp only [analyze_logs_with_llm, hk, Bool.false_eq_true, if_false, hpp]
        rw [if_neg hcfg, if_neg (by simp [hd.1, hd.2])]
        rfl

/-- C9 witness: the amended theorem applied at a single well-formed detail
line, a configured endpoint/model and a present credential: the run is
exception-free and the timeout sentinel is returned on a timed-out call. -/
theorem C9_witness :
    (analyze_logs_with_llm [goodLine]
      { llm := { api_url := "u", model := "m" } } (some "k") NetOutcome.jsonError).isOk = true ∧
    analyze_logs_with_llm [goodLine]
      { llm := { api_url := "u", model := "m" } } (some "k") NetOutcome.timeout =
      Except.ok "LLM API 시간 초과" := by
  constructor
  · exact (C9_amended_theorem [goodLine] { llm := { api_url := "u", model := "m" } }
      (some "k") (by decide)).1 NetOutcome.jsonError
  · exact ((C9_amended_theorem [goodLine] { llm := { api_url := "u", model := "m" } }
      (some "k") (by decide)).2.1 (by decide) (by decide)
      (by decide) (by decide)).1
